import Mathlib

/-!
Verification of the shared request-execution pipeline of the
`prussaq/integrations` repository: the retry/backoff engine
`execute_request` (src/shared/functions.py), the `RequestFailed`
exception (src/shared/exceptions.py) and the per-key rate limiter
`acquire` (src/shared/rate_limiter.py).

The Python code is shallowly embedded: caller-supplied callbacks are
modelled as pure functions indexed by the attempt number (so that an
arbitrary sequence of outcomes can be described), Python exceptions
become values of an explicit `Exc` type, the `while` loop becomes a
fueled recursion (the fuel is the remaining number of loop iterations,
which the loop condition `attempt < retries` bounds by `retries`), and
real-numbered delays/timestamps are idealized as rationals.
-/

namespace Integrations

/-- A Python exception value, as far as `execute_request` can observe it:
the first `except` clause catches exactly the exceptions of class
`requests.exceptions.HTTPError`, so each exception carries whether it is
an `HTTPError`.  `httpStatusError s` is the `HTTPError` raised by
`response.raise_for_status()` on a response with status code `s`;
`callbackError` is an exception raised by one of the caller-supplied
callbacks; `attributeError` is the `AttributeError` produced by reading
`response.status_code` while `response` is still `None`. -/
inductive Exc where
  | httpStatusError (status : Nat)
  | callbackError (isHTTP : Bool) (tag : Nat)
  | attributeError
deriving Repr, DecidableEq

/-- Whether the exception is caught by `except requests.exceptions.HTTPError`. -/
def Exc.isHTTPError : Exc → Bool
  | .httpStatusError _ => true
  | .callbackError h _ => h
  | .attributeError => false

/-- A `requests.Response` as observed by `execute_request`: its HTTP
status code, plus an opaque payload of type `ρ` standing for everything
else (`read` may inspect it). -/
structure Response (ρ : Type) where
  status_code : Nat
  payload : ρ
deriving Repr, DecidableEq

/-- The `settings` dict of `execute_request`: each recognized key is
either present with a value or absent (`none`), in which case
`settings.get(key, default)` falls back to the module-wide default.
`settings.get('full')` yields `None` when absent, which is falsy. -/
structure Settings where
  retries : Option Int := none
  delay : Option ℚ := none
  backoff : Option ℚ := none
  full : Option Bool := none
deriving Repr, DecidableEq

/-- Modelled from the spec: the module `integrations.shared.settings`
(providing the process-wide defaults `RETRIES`, `DELAY`, `BACKOFF`) is
not under src/.  Spec §3 fixes the default retry count at 3; the default
`DELAY` and `BACKOFF` are numerically unspecified there, so they are
parameters of `execute_request` below. -/
def RETRIES : Int := 3

/-- How the `while` loop of `execute_request` ends: `finished` is the
fall-through to `check` (via `break`, or because the loop body never ran),
carrying the current values of the `response` and `body` variables;
`failed` is a raised `RequestFailed(message, errors)`; `raised` is any
other exception propagating out of the loop. -/
inductive LoopExit (ρ β : Type) where
  | finished (response : Option (Response ρ)) (body : Option β)
  | failed (message : String) (errors : List Exc)
  | raised (e : Exc)
deriving Repr, DecidableEq

/-- Result of running the loop, with instrumentation: how often `send`
and `read` were invoked from this point on, and the argument of each
`time.sleep` call in order. -/
structure LoopOut (ρ β : Type) where
  exit : LoopExit ρ β
  sendCalls : Nat
  readCalls : Nat
  sleeps : List ℚ
deriving Repr, DecidableEq

/-- The retry handling at the bottom of the loop body, reached whenever
the iteration appended a retryable error: `if attempt == retries: raise
RequestFailed(...)`, else `time.sleep(delay); delay *= backoff` and
iterate again.  `a` is the (just incremented) value of `attempt`, `rc`
is 1 when this iteration called `read` and 0 otherwise, and `rest` is
the outcome of the remaining iterations. -/
def retryOrFail (retries : Int) (a : Nat) (errors : List Exc) (delay : ℚ)
    (rc : Nat) (rest : LoopOut ρ β) : LoopOut ρ β :=
  if (a : Int) = retries then
    ⟨.failed (s!"retry budget of {retries} attempt(s) exhausted") errors, 1, rc, []⟩
  else
    ⟨rest.exit, rest.sendCalls + 1, rest.readCalls + rc, delay :: rest.sleeps⟩

/-- The `while attempt < retries` loop of `execute_request`.  The fuel is
the number of iterations the loop condition still allows (initially
`retries.toNat`, since `attempt` starts at 0 and grows by 1 per
iteration); `attempt`, `errors`, `response`, `body` and `delay` are the
local variables of the Python function.  `send i` / `read i r` give the
outcome of the i-th invocation of the respective callback (1-based), so
a single run exercises the callbacks along an arbitrary outcome
sequence.  `response.raise_for_status()` raises `HTTPError` exactly for
status codes in [400, 600). -/
def execLoop (send : Nat → Except Exc (Response ρ))
    (read : Nat → Response ρ → Except Exc β)
    (retries : Int) (backoff : ℚ) :
    Nat → Nat → List Exc → Option (Response ρ) → Option β → ℚ → LoopOut ρ β
  | 0, _, _, response, body, _ => ⟨.finished response body, 0, 0, []⟩
  | fuel + 1, attempt, errors, response, body, delay =>
    let a := attempt + 1
    match send a with
    | .error e =>
      if e.isHTTPError then
        -- `except requests.exceptions.HTTPError`: `response` is unchanged,
        -- so `response.status_code` reads the previous attempt's response
        -- (an AttributeError if there is none).
        match response with
        | none => ⟨.raised .attributeError, 1, 0, []⟩
        | some r0 =>
          if r0.status_code < 500 then
            ⟨.failed (s!"non-retryable error encountered on attempt {a}")
              (errors ++ [e]), 1, 0, []⟩
          else
            retryOrFail retries a (errors ++ [e]) delay 0
              (execLoop send read retries backoff fuel a (errors ++ [e])
                response body (delay * backoff))
      else
        retryOrFail retries a (errors ++ [e]) delay 0
          (execLoop send read retries backoff fuel a (errors ++ [e])
            response body (delay * backoff))
    | .ok r =>
      if 400 ≤ r.status_code ∧ r.status_code < 600 then
        -- `raise_for_status` raised `HTTPError`; `response` = this response.
        if r.status_code < 500 then
          ⟨.failed (s!"non-retryable error encountered on attempt {a}")
            (errors ++ [.httpStatusError r.status_code]), 1, 0, []⟩
        else
          retryOrFail retries a (errors ++ [.httpStatusError r.status_code]) delay 0
            (execLoop send read retries backoff fuel a
              (errors ++ [.httpStatusError r.status_code]) (some r) body
              (delay * backoff))
      else
        match read a r with
        | .ok b => ⟨.finished (some r) (some b), 1, 1, []⟩
        | .error e =>
          if e.isHTTPError then
            if r.status_code < 500 then
              ⟨.failed (s!"non-retryable error encountered on attempt {a}")
                (errors ++ [e]), 1, 1, []⟩
            else
              retryOrFail retries a (errors ++ [e]) delay 1
                (execLoop send read retries backoff fuel a (errors ++ [e])
                  (some r) body (delay * backoff))
          else
            retryOrFail retries a (errors ++ [e]) delay 1
              (execLoop send read retries backoff fuel a (errors ++ [e])
                (some r) body (delay * backoff))

/-- The value `execute_request` produces: a normal return of the parsed
body (`retBody`), the `(response, body)` pair when `full` is set
(`retFull`), a raised `RequestFailed` (`requestFailed`), or any other
exception propagating out (`raised`) — in particular one raised by
`check`. -/
inductive ExecResult (ρ β : Type) where
  | retBody (body : Option β)
  | retFull (response : Option (Response ρ)) (body : Option β)
  | requestFailed (message : String) (errors : List Exc)
  | raised (e : Exc)
deriving Repr, DecidableEq

/-- Observable trace of one `execute_request` call: its result, the
number of `send` and `read` invocations, the `time.sleep` arguments in
order, and the arguments `check` was invoked with (or `none` when
`check` was never reached). -/
structure ExecTrace (ρ β : Type) where
  result : ExecResult ρ β
  sendCalls : Nat
  readCalls : Nat
  sleeps : List ℚ
  checkArgs : Option (Option (Response ρ) × Option β)
deriving Repr, DecidableEq

/-- `execute_request(send, read, check, settings)` from
src/shared/functions.py.  `DELAY` and `BACKOFF` are the process-wide
defaults imported from the (absent) settings module; `RETRIES` is the
spec-given default 3. -/
def execute_request (DELAY BACKOFF : ℚ)
    (send : Nat → Except Exc (Response ρ))
    (read : Nat → Response ρ → Except Exc β)
    (check : Option (Response ρ) → Option β → Except Exc Unit)
    (settings : Settings) : ExecTrace ρ β :=
  let retries := settings.retries.getD RETRIES
  let delay := settings.delay.getD DELAY
  let backoff := settings.backoff.getD BACKOFF
  let lp := execLoop send read retries backoff retries.toNat 0 [] none none delay
  let res : ExecResult ρ β × Option (Option (Response ρ) × Option β) :=
    match lp.exit with
    | .failed m es => (.requestFailed m es, none)
    | .raised e => (.raised e, none)
    | .finished r b =>
      match check r b with
      | .error e => (.raised e, some (r, b))
      | .ok _ =>
        if settings.full.getD false then (.retFull r b, some (r, b))
        else (.retBody b, some (r, b))
  ⟨res.1, lp.sendCalls, lp.readCalls, lp.sleeps, res.2⟩

/-- The loop run performed by `execute_request` once the settings have
been resolved against the process-wide defaults: `attempt` starts at 0,
`errors` at `[]`, `response` and `body` at `None`, and the loop
condition `attempt < retries` allows at most `retries.toNat`
iterations. -/
def mainLoop (DELAY BACKOFF : ℚ) (send : Nat → Except Exc (Response ρ))
    (read : Nat → Response ρ → Except Exc β) (settings : Settings) : LoopOut ρ β :=
  execLoop send read (settings.retries.getD RETRIES) (settings.backoff.getD BACKOFF)
    (settings.retries.getD RETRIES).toNat 0 [] none none (settings.delay.getD DELAY)

/-- A retryable failure of attempt `i`, exactly the situations in which
the loop body of `execute_request` appends exception `e` to `errors` and
falls through to the retry handling: `send` raised an ordinary (non-
`HTTPError`) exception, or `send` returned a 5xx response (so
`raise_for_status` raised `e`), or the response status was acceptable
and `read` raised an ordinary exception. -/
def retryFailure (send : Nat → Except Exc (Response ρ))
    (read : Nat → Response ρ → Except Exc β) (i : Nat) (e : Exc) : Prop :=
  (send i = .error e ∧ e.isHTTPError = false)
  ∨ (∃ r, send i = .ok r ∧ 500 ≤ r.status_code ∧ r.status_code < 600 ∧
      e = .httpStatusError r.status_code)
  ∨ (∃ r, send i = .ok r ∧ (r.status_code < 400 ∨ 600 ≤ r.status_code) ∧
      read i r = .error e ∧ e.isHTTPError = false)

/-- Minimum spacing enforced by src/shared/rate_limiter.py (0.5 s). -/
def INTERVAL : ℚ := 1/2

/-- The rate limiter's module-level `state` dict: last-acquire timestamp
per key (`state.get(key, 0)` defaults to 0). -/
def RLState := String → Option ℚ

/-- Result of one `acquire` call under the idealized monotone clock:
the updated `state` dict and the time at which the call returns. -/
structure AcquireOut where
  newState : RLState
  returnTime : ℚ

/-- `acquire(key)` from src/shared/rate_limiter.py, called at clock time
`now`: if less than `INTERVAL` elapsed since the recorded timestamp for
`key`, sleep the remainder (so the call returns at `now + wait`);
then unconditionally record the current time (= the return time, under
the idealized monotone clock) as the new timestamp for `key`. -/
def acquire (key : String) (st : RLState) (now : ℚ) : AcquireOut :=
  let elapsed := now - ((st key).getD 0)
  let ret := if elapsed < INTERVAL then now + (INTERVAL - elapsed) else now
  ⟨fun k => if k = key then some ret else st k, ret⟩

/-! Concrete callback instances, used to exercise the model at
specific inputs. -/

/-- A `send` that always returns status `s` with payload `p`. -/
def okSend (s p : Nat) : Nat → Except Exc (Response Nat) := fun _ => .ok ⟨s, p⟩

/-- A `read` that parses the payload into `payload + 37`. -/
def addRead : Nat → Response Nat → Except Exc Nat := fun _ r => .ok (r.payload + 37)

/-- A `check` that always passes. -/
def okCheck : Option (Response Nat) → Option Nat → Except Exc Unit := fun _ _ => .ok ()

/-- A `check` that always raises the (non-HTTPError) exception `tag`. -/
def errCheck (tag : Nat) : Option (Response Nat) → Option Nat → Except Exc Unit :=
  fun _ _ => .error (.callbackError false tag)

/-- A `send` that always raises the (non-HTTPError) exception `tag`. -/
def errSend (tag : Nat) : Nat → Except Exc (Response Nat) :=
  fun _ => .error (.callbackError false tag)

/-- A `send` that raises a network-style exception on its first call and
returns a response with status `s` afterwards. -/
def failThenSend (s : Nat) : Nat → Except Exc (Response Nat) :=
  fun i => if i = 1 then .error (.callbackError false 7) else .ok ⟨s, 5⟩

/-! Theorems. -/

theorem retryOrFail_last {ρ β : Type} (retries : Int) (a : Nat) (errors : List Exc)
    (delay : ℚ) (rc : Nat) (rest : LoopOut ρ β) (h : (a : Int) = retries) :
    retryOrFail retries a errors delay rc rest
      = ⟨.failed (s!"retry budget of {retries} attempt(s) exhausted") errors, 1, rc, []⟩ := by
  unfold retryOrFail
  rw [if_pos h]

theorem retryOrFail_cont {ρ β : Type} (retries : Int) (a : Nat) (errors : List Exc)
    (delay : ℚ) (rc : Nat) (rest : LoopOut ρ β) (h : (a : Int) ≠ retries) :
    retryOrFail retries a errors delay rc rest
      = ⟨rest.exit, rest.sendCalls + 1, rest.readCalls + rc, delay :: rest.sleeps⟩ := by
  unfold retryOrFail
  rw [if_neg h]

theorem execLoop_break (send : Nat → Except Exc (Response ρ))
    (read : Nat → Response ρ → Except Exc β) (retries : Int) (backoff : ℚ)
    (fuel attempt : Nat) (errors : List Exc) (response : Option (Response ρ))
    (body : Option β) (delay : ℚ) (r : Response ρ) (b : β)
    (hsend : send (attempt + 1) = .ok r)
    (hacc : r.status_code < 400 ∨ 600 ≤ r.status_code)
    (hread : read (attempt + 1) r = .ok b) :
    execLoop send read retries backoff (fuel + 1) attempt errors response body delay
      = ⟨.finished (some r) (some b), 1, 1, []⟩ := by
  have hc : ¬ (400 ≤ r.status_code ∧ r.status_code < 600) := by omega
  simp [execLoop, hsend, hread, hc]

theorem execLoop_fourxx (send : Nat → Except Exc (Response ρ))
    (read : Nat → Response ρ → Except Exc β) (retries : Int) (backoff : ℚ)
    (fuel attempt : Nat) (errors : List Exc) (response : Option (Response ρ))
    (body : Option β) (delay : ℚ) (r : Response ρ)
    (hsend : send (attempt + 1) = .ok r)
    (h4 : 400 ≤ r.status_code) (h5 : r.status_code < 500) :
    execLoop send read retries backoff (fuel + 1) attempt errors response body delay
      = ⟨.failed (s!"non-retryable error encountered on attempt {attempt + 1}")
          (errors ++ [.httpStatusError r.status_code]), 1, 0, []⟩ := by
  have hc : 400 ≤ r.status_code ∧ r.status_code < 600 := ⟨h4, by omega⟩
  simp [execLoop, hsend, hc, h5]

theorem execLoop_retry_step (send : Nat → Except Exc (Response ρ))
    (read : Nat → Response ρ → Except Exc β) (retries : Int) (backoff : ℚ)
    (fuel attempt : Nat) (errors : List Exc) (response : Option (Response ρ))
    (body : Option β) (delay : ℚ) (e : Exc)
    (hfail : retryFailure send read (attempt + 1) e) :
    ∃ (response' : Option (Response ρ)) (body' : Option β) (rc : Nat),
      execLoop send read retries backoff (fuel + 1) attempt errors response body delay
        = retryOrFail retries (attempt + 1) (errors ++ [e]) delay rc
            (execLoop send read retries backoff fuel (attempt + 1) (errors ++ [e])
              response' body' (delay * backoff)) := by
  rcases hfail with ⟨hsend, hhttp⟩ | ⟨r, hsend, h5, h6, he⟩ | ⟨r, hsend, hacc, hread, hhttp⟩
  · exact ⟨response, body, 0, by simp [execLoop, hsend, hhttp]⟩
  · refine ⟨some r, body, 0, ?_⟩
    subst he
    have hc : 400 ≤ r.status_code ∧ r.status_code < 600 := ⟨by omega, h6⟩
    have h5' : ¬ r.status_code < 500 := by omega
    simp [execLoop, hsend, hc, h5']
  · refine ⟨some r, body, 1, ?_⟩
    have hc : ¬ (400 ≤ r.status_code ∧ r.status_code < 600) := by omega
    simp [execLoop, hsend, hc, hread, hhttp]

theorem execLoop_succ_cases (send : Nat → Except Exc (Response ρ))
    (read : Nat → Response ρ → Except Exc β) (retries : Int) (backoff : ℚ)
    (fuel attempt : Nat) (errors : List Exc) (response : Option (Response ρ))
    (body : Option β) (delay : ℚ) :
    (∃ (ex : LoopExit ρ β) (rc : Nat),
      execLoop send read retries backoff (fuel + 1) attempt errors response body delay
        = ⟨ex, 1, rc, []⟩)
    ∨ (∃ (errors' : List Exc) (response' : Option (Response ρ)) (body' : Option β)
        (rc : Nat),
      execLoop send read retries backoff (fuel + 1) attempt errors response body delay
        = retryOrFail retries (attempt + 1) errors' delay rc
            (execLoop send read retries backoff fuel (attempt + 1) errors' response'
              body' (delay * backoff))) := by
  rcases hsend : send (attempt + 1) with e | r
  · by_cases hh : e.isHTTPError = true
    · cases hresp : response with
      | none =>
        exact Or.inl ⟨.raised .attributeError, 0, by simp [execLoop, hsend, hh, hresp]⟩
      | some r0 =>
        by_cases h5 : r0.status_code < 500
        · exact Or.inl ⟨.failed (s!"non-retryable error encountered on attempt {attempt + 1}")
            (errors ++ [e]), 0, by simp [execLoop, hsend, hh, hresp, h5]⟩
        · exact Or.inr ⟨errors ++ [e], some r0, body, 0,
            by simp [execLoop, hsend, hh, hresp, h5]⟩
    · exact Or.inr ⟨errors ++ [e], response, body, 0, by simp [execLoop, hsend, hh]⟩
  · by_cases hc : 400 ≤ r.status_code ∧ r.status_code < 600
    · by_cases h5 : r.status_code < 500
      · exact Or.inl ⟨.failed (s!"non-retryable error encountered on attempt {attempt + 1}")
          (errors ++ [.httpStatusError r.status_code]), 0,
          by simp [execLoop, hsend, hc, h5]⟩
      · exact Or.inr ⟨errors ++ [.httpStatusError r.status_code], some r, body, 0,
          by simp [execLoop, hsend, hc, h5]⟩
    · rcases hread : read (attempt + 1) r with e | b
      · by_cases hh : e.isHTTPError = true
        · by_cases h5 : r.status_code < 500
          · exact Or.inl ⟨.failed (s!"non-retryable error encountered on attempt {attempt + 1}")
              (errors ++ [e]), 1, by simp [execLoop, hsend, hc, hread, hh, h5]⟩
          · exact Or.inr ⟨errors ++ [e], some r, body, 1,
              by simp [execLoop, hsend, hc, hread, hh, h5]⟩
        · exact Or.inr ⟨errors ++ [e], some r, body, 1,
            by simp [execLoop, hsend, hc, hread, hh]⟩
      · exact Or.inl ⟨.finished (some r) (some b), 1, by simp [execLoop, hsend, hc, hread]⟩

theorem execLoop_sendCalls_le (send : Nat → Except Exc (Response ρ))
    (read : Nat → Response ρ → Except Exc β) (retries : Int) (backoff : ℚ) :
    ∀ (fuel attempt : Nat) (errors : List Exc) (response : Option (Response ρ))
      (body : Option β) (delay : ℚ),
      (execLoop send read retries backoff fuel attempt errors response body delay).sendCalls
        ≤ fuel := by
  intro fuel
  induction fuel with
  | zero =>
    intro attempt errors response body delay
    simp [execLoop]
  | succ fuel ih =>
    intro attempt errors response body delay
    rcases execLoop_succ_cases send read retries backoff fuel attempt errors response
        body delay with ⟨ex, rc, heq⟩ | ⟨errors', response', body', rc, heq⟩
    · rw [heq]
      simp
    · rw [heq]
      by_cases ha : ((attempt + 1 : Nat) : Int) = retries
      · rw [retryOrFail_last _ _ _ _ _ _ ha]
        simp
      · rw [retryOrFail_cont _ _ _ _ _ _ ha]
        have := ih (attempt + 1) errors' response' body' (delay * backoff)
        simp only []
        omega

theorem execLoop_sendCalls_pos (send : Nat → Except Exc (Response ρ))
    (read : Nat → Response ρ → Except Exc β) (retries : Int) (backoff : ℚ)
    (fuel attempt : Nat) (errors : List Exc) (response : Option (Response ρ))
    (body : Option β) (delay : ℚ) :
    1 ≤ (execLoop send read retries backoff (fuel + 1) attempt errors response body
      delay).sendCalls := by
  rcases execLoop_succ_cases send read retries backoff fuel attempt errors response
      body delay with ⟨ex, rc, heq⟩ | ⟨errors', response', body', rc, heq⟩
  · rw [heq]
  · rw [heq]
    by_cases ha : ((attempt + 1 : Nat) : Int) = retries
    · rw [retryOrFail_last _ _ _ _ _ _ ha]
    · rw [retryOrFail_cont _ _ _ _ _ _ ha]
      simp only []
      omega

theorem execLoop_sleeps_geom (send : Nat → Except Exc (Response ρ))
    (read : Nat → Response ρ → Except Exc β) (retries : Int) (backoff : ℚ) :
    ∀ (fuel attempt : Nat) (errors : List Exc) (response : Option (Response ρ))
      (body : Option β) (delay : ℚ) (i : Nat) (x : ℚ),
      (execLoop send read retries backoff fuel attempt errors response body
        delay).sleeps[i]? = some x →
      x = delay * backoff ^ i := by
  intro fuel
  induction fuel with
  | zero =>
    intro attempt errors response body delay i x h
    simp [execLoop] at h
  | succ fuel ih =>
    intro attempt errors response body delay i x h
    rcases execLoop_succ_cases send read retries backoff fuel attempt errors response
        body delay with ⟨ex, rc, heq⟩ | ⟨errors', response', body', rc, heq⟩
    · rw [heq] at h
      simp at h
    · rw [heq] at h
      by_cases ha : ((attempt + 1 : Nat) : Int) = retries
      · rw [retryOrFail_last _ _ _ _ _ _ ha] at h
        simp at h
      · rw [retryOrFail_cont _ _ _ _ _ _ ha] at h
        simp only [] at h
        cases i with
        | zero =>
          simp at h
          rw [← h, pow_zero, mul_one]
        | succ i =>
          have hx := ih (attempt + 1) errors' response' body' (delay * backoff) i x
            (by simpa using h)
          rw [hx]
          ring

theorem execLoop_success (send : Nat → Except Exc (Response ρ))
    (read : Nat → Response ρ → Except Exc β) (retries : Int) (backoff : ℚ)
    (r : Response ρ) (b : β) :
    ∀ (k fuel attempt : Nat) (errors : List Exc) (response : Option (Response ρ))
      (body : Option β) (delay : ℚ),
      k < fuel → ((attempt : Int) + fuel = retries) →
      (∀ j, j < k → ∃ e, retryFailure send read (attempt + 1 + j) e) →
      send (attempt + k + 1) = .ok r →
      (r.status_code < 400 ∨ 600 ≤ r.status_code) →
      read (attempt + k + 1) r = .ok b →
      (execLoop send read retries backoff fuel attempt errors response body delay).exit
        = .finished (some r) (some b)
      ∧ (execLoop send read retries backoff fuel attempt errors response body
          delay).sendCalls = k + 1 := by
  intro k
  induction k with
  | zero =>
    intro fuel attempt errors response body delay hk hinv hf hsend hacc hread
    obtain ⟨f, rfl⟩ : ∃ f, fuel = f + 1 := ⟨fuel - 1, by omega⟩
    rw [execLoop_break send read retries backoff f attempt errors response body delay
      r b (by simpa using hsend) hacc (by simpa using hread)]
    exact ⟨rfl, rfl⟩
  | succ k ih =>
    intro fuel attempt errors response body delay hk hinv hf hsend hacc hread
    obtain ⟨f, rfl⟩ : ∃ f, fuel = f + 1 := ⟨fuel - 1, by omega⟩
    obtain ⟨e, he⟩ := hf 0 (by omega)
    obtain ⟨response', body', rc, heq⟩ := execLoop_retry_step send read retries backoff
      f attempt errors response body delay e (by simpa using he)
    rw [heq, retryOrFail_cont _ _ _ _ _ _ (by omega)]
    have hf' : ∀ j, j < k → ∃ e, retryFailure send read (attempt + 1 + 1 + j) e := by
      intro j hj
      obtain ⟨e', he'⟩ := hf (j + 1) (by omega)
      refine ⟨e', ?_⟩
      have hn : attempt + 1 + (j + 1) = attempt + 1 + 1 + j := by omega
      rwa [hn] at he'
    have hn : attempt + 1 + k + 1 = attempt + (k + 1) + 1 := by omega
    obtain ⟨h1, h2⟩ := ih f (attempt + 1) (errors ++ [e]) response' body'
      (delay * backoff) (by omega) (by omega) hf'
      (by rw [hn]; exact hsend) hacc (by rw [hn]; exact hread)
    exact ⟨h1, by simp only []; omega⟩

theorem execLoop_allfail (send : Nat → Except Exc (Response ρ))
    (read : Nat → Response ρ → Except Exc β) (retries : Int) (backoff : ℚ) :
    ∀ (es : List Exc) (fuel attempt : Nat) (errors : List Exc)
      (response : Option (Response ρ)) (body : Option β) (delay : ℚ),
      es.length = fuel → 1 ≤ fuel → ((attempt : Int) + fuel = retries) →
      (∀ j e, es[j]? = some e → retryFailure send read (attempt + 1 + j) e) →
      (execLoop send read retries backoff fuel attempt errors response body delay).exit
        = .failed (s!"retry budget of {retries} attempt(s) exhausted") (errors ++ es)
      ∧ (execLoop send read retries backoff fuel attempt errors response body
          delay).sendCalls = fuel := by
  intro es
  induction es with
  | nil =>
    intro fuel attempt errors response body delay hlen h1 hinv hf
    simp at hlen
    omega
  | cons e es' ih =>
    intro fuel attempt errors response body delay hlen h1 hinv hf
    obtain ⟨f, rfl⟩ : ∃ f, fuel = f + 1 := ⟨fuel - 1, by omega⟩
    have he : retryFailure send read (attempt + 1) e := by
      have := hf 0 e (by simp)
      simpa using this
    obtain ⟨response', body', rc, heq⟩ := execLoop_retry_step send read retries backoff
      f attempt errors response body delay e he
    rw [heq]
    rcases Nat.eq_zero_or_pos f with hf0 | hfpos
    · subst hf0
      have hes' : es' = [] := by simpa using hlen
      subst hes'
      rw [retryOrFail_last _ _ _ _ _ _ (by omega)]
      exact ⟨rfl, rfl⟩
    · rw [retryOrFail_cont _ _ _ _ _ _ (by omega)]
      have hf' : ∀ j e', es'[j]? = some e' →
          retryFailure send read (attempt + 1 + 1 + j) e' := by
        intro j e' hj
        have := hf (j + 1) e' (by simpa using hj)
        have hn : attempt + 1 + (j + 1) = attempt + 1 + 1 + j := by omega
        rwa [hn] at this
      obtain ⟨h1', h2'⟩ := ih f (attempt + 1) (errors ++ [e]) response' body'
        (delay * backoff) (by simpa using hlen) hfpos (by omega) hf'
      constructor
      · show (execLoop send read retries backoff f (attempt + 1) (errors ++ [e])
          response' body' (delay * backoff)).exit = _
        rw [h1']
        simp
      · simp only []
        omega

theorem execLoop_fail4xx_after (send : Nat → Except Exc (Response ρ))
    (read : Nat → Response ρ → Except Exc β) (retries : Int) (backoff : ℚ)
    (r : Response ρ) :
    ∀ (es : List Exc) (fuel attempt : Nat) (errors : List Exc)
      (response : Option (Response ρ)) (body : Option β) (delay : ℚ),
      es.length < fuel → ((attempt : Int) + fuel = retries) →
      (∀ j e, es[j]? = some e → retryFailure send read (attempt + 1 + j) e) →
      send (attempt + es.length + 1) = .ok r →
      400 ≤ r.status_code → r.status_code < 500 →
      (execLoop send read retries backoff fuel attempt errors response body delay).exit
        = .failed (s!"non-retryable error encountered on attempt {attempt + es.length + 1}")
            (errors ++ es ++ [.httpStatusError r.status_code])
      ∧ (execLoop send read retries backoff fuel attempt errors response body
          delay).sendCalls = es.length + 1 := by
  intro es
  induction es with
  | nil =>
    intro fuel attempt errors response body delay hk hinv hf hsend h4 h5
    obtain ⟨f, rfl⟩ : ∃ f, fuel = f + 1 := ⟨fuel - 1, by omega⟩
    rw [execLoop_fourxx send read retries backoff f attempt errors response body delay
      r (by simpa using hsend) h4 h5]
    refine ⟨?_, rfl⟩
    simp
  | cons e es' ih =>
    intro fuel attempt errors response body delay hk hinv hf hsend h4 h5
    obtain ⟨f, rfl⟩ : ∃ f, fuel = f + 1 := ⟨fuel - 1, by omega⟩
    have he : retryFailure send read (attempt + 1) e := by
      have := hf 0 e (by simp)
      simpa using this
    obtain ⟨response', body', rc, heq⟩ := execLoop_retry_step send read retries backoff
      f attempt errors response body delay e he
    rw [heq]
    have hflen : es'.length + 1 < f + 1 := by simpa using hk
    rw [retryOrFail_cont _ _ _ _ _ _ (by omega)]
    have hf' : ∀ j e', es'[j]? = some e' →
        retryFailure send read (attempt + 1 + 1 + j) e' := by
      intro j e' hj
      have := hf (j + 1) e' (by simpa using hj)
      have hn : attempt + 1 + (j + 1) = attempt + 1 + 1 + j := by omega
      rwa [hn] at this
    have hn : attempt + 1 + es'.length + 1 = attempt + (e :: es').length + 1 := by
      simp
      omega
    obtain ⟨h1', h2'⟩ := ih f (attempt + 1) (errors ++ [e]) response' body'
      (delay * backoff) (by omega) (by omega) hf' (by rw [hn]; exact hsend) h4 h5
    constructor
    · show (execLoop send read retries backoff f (attempt + 1) (errors ++ [e])
        response' body' (delay * backoff)).exit = _
      rw [h1', hn]
      simp
    · simp only [List.length_cons]
      omega

theorem execute_request_sendCalls (DELAY BACKOFF : ℚ)
    (send : Nat → Except Exc (Response ρ)) (read : Nat → Response ρ → Except Exc β)
    (check : Option (Response ρ) → Option β → Except Exc Unit) (settings : Settings) :
    (execute_request DELAY BACKOFF send read check settings).sendCalls
      = (mainLoop DELAY BACKOFF send read settings).sendCalls := rfl

theorem execute_request_readCalls (DELAY BACKOFF : ℚ)
    (send : Nat → Except Exc (Response ρ)) (read : Nat → Response ρ → Except Exc β)
    (check : Option (Response ρ) → Option β → Except Exc Unit) (settings : Settings) :
    (execute_request DELAY BACKOFF send read check settings).readCalls
      = (mainLoop DELAY BACKOFF send read settings).readCalls := rfl

theorem execute_request_sleeps (DELAY BACKOFF : ℚ)
    (send : Nat → Except Exc (Response ρ)) (read : Nat → Response ρ → Except Exc β)
    (check : Option (Response ρ) → Option β → Except Exc Unit) (settings : Settings) :
    (execute_request DELAY BACKOFF send read check settings).sleeps
      = (mainLoop DELAY BACKOFF send read settings).sleeps := rfl

theorem execute_request_of_failed (DELAY BACKOFF : ℚ)
    (send : Nat → Except Exc (Response ρ)) (read : Nat → Response ρ → Except Exc β)
    (check : Option (Response ρ) → Option β → Except Exc Unit) (settings : Settings)
    (m : String) (es : List Exc)
    (h : (mainLoop DELAY BACKOFF send read settings).exit = .failed m es) :
    (execute_request DELAY BACKOFF send read check settings).result
      = .requestFailed m es := by
  unfold mainLoop at h
  simp [execute_request, h]

theorem execute_request_of_finished (DELAY BACKOFF : ℚ)
    (send : Nat → Except Exc (Response ρ)) (read : Nat → Response ρ → Except Exc β)
    (check : Option (Response ρ) → Option β → Except Exc Unit) (settings : Settings)
    (r : Option (Response ρ)) (b : Option β)
    (h : (mainLoop DELAY BACKOFF send read settings).exit = .finished r b) :
    (execute_request DELAY BACKOFF send read check settings).checkArgs = some (r, b)
    ∧ (∀ e, check r b = .error e →
        (execute_request DELAY BACKOFF send read check settings).result = .raised e)
    ∧ (check r b = .ok () →
        (execute_request DELAY BACKOFF send read check settings).result
          = if settings.full.getD false then .retFull r b else .retBody b) := by
  unfold mainLoop at h
  refine ⟨?_, ?_, ?_⟩
  · rcases hc : check r b with e | u
    · simp [execute_request, h, hc]
    · simp only [execute_request, h, hc]
      split <;> rfl
  · intro e hc
    simp [execute_request, h, hc]
  · intro hc
    by_cases hfull : settings.full.getD false <;> simp [execute_request, h, hc, hfull]

theorem execLoop_readCalls_pos (send : Nat → Except Exc (Response ρ))
    (read : Nat → Response ρ → Except Exc β) (retries : Int) (backoff : ℚ)
    (fuel attempt : Nat) (errors : List Exc) (response : Option (Response ρ))
    (body : Option β) (delay : ℚ) (r : Response ρ)
    (hsend : send (attempt + 1) = .ok r)
    (hacc : r.status_code < 400 ∨ 600 ≤ r.status_code) :
    1 ≤ (execLoop send read retries backoff (fuel + 1) attempt errors response body
      delay).readCalls := by
  have hc : ¬ (400 ≤ r.status_code ∧ r.status_code < 600) := by omega
  rcases hread : read (attempt + 1) r with e | b
  · by_cases hh : e.isHTTPError = true
    · by_cases h5 : r.status_code < 500
      · simp [execLoop, hsend, hc, hread, hh, h5]
      · simp only [execLoop, hsend, hc, hread, hh, h5]
        simp [hc]
        unfold retryOrFail
        split <;> simp
    · simp only [execLoop, hsend, hread, hh]
      simp [hc]
      unfold retryOrFail
      split <;> simp
  · simp [execLoop, hsend, hc, hread]

/-- C1: for every settings with `retries = r` (r ≥ 1) and every sequence of
outcomes of the caller-supplied callbacks, `execute_request` invokes the
`send` callback at most `r` times. -/
theorem C1_send_call_bound (DELAY BACKOFF : ℚ)
    (send : Nat → Except Exc (Response ρ)) (read : Nat → Response ρ → Except Exc β)
    (check : Option (Response ρ) → Option β → Except Exc Unit) (settings : Settings)
    (r : Int) (hr : settings.retries = some r) (h1 : 1 ≤ r) :
    ((execute_request DELAY BACKOFF send read check settings).sendCalls : Int) ≤ r := by
  rw [execute_request_sendCalls]
  unfold mainLoop
  have hb := execLoop_sendCalls_le send read (settings.retries.getD RETRIES)
    (settings.backoff.getD BACKOFF) (settings.retries.getD RETRIES).toNat 0 [] none none
    (settings.delay.getD DELAY)
  rw [hr] at hb ⊢
  simp only [Option.getD_some] at hb ⊢
  omega

theorem C1_send_call_bound_witness :
    ((execute_request 0 0 (okSend 200 5) addRead okCheck
      {retries := some 2}).sendCalls : Int) ≤ 2 :=
  C1_send_call_bound 0 0 (okSend 200 5) addRead okCheck {retries := some 2} 2 rfl
    (by norm_num)

/-- C3: if the first `send` call returns a response with a 4xx status,
`execute_request` raises `RequestFailed` immediately with exactly one error
in its errors list, without a second `send` invocation and without
sleeping. -/
theorem C3_fourxx_immediate (DELAY BACKOFF : ℚ)
    (send : Nat → Except Exc (Response ρ)) (read : Nat → Response ρ → Except Exc β)
    (check : Option (Response ρ) → Option β → Except Exc Unit) (settings : Settings)
    (R : Int) (r : Response ρ)
    (hr : settings.retries = some R) (h1 : 1 ≤ R)
    (hsend : send 1 = .ok r) (h4 : 400 ≤ r.status_code) (h5 : r.status_code < 500) :
    (execute_request DELAY BACKOFF send read check settings).result
      = .requestFailed "non-retryable error encountered on attempt 1"
          [.httpStatusError r.status_code]
    ∧ (execute_request DELAY BACKOFF send read check settings).sendCalls = 1
    ∧ (execute_request DELAY BACKOFF send read check settings).sleeps = [] := by
  have hmain : mainLoop DELAY BACKOFF send read settings
      = ⟨.failed "non-retryable error encountered on attempt 1"
          [.httpStatusError r.status_code], 1, 0, []⟩ := by
    unfold mainLoop
    rw [hr]
    simp only [Option.getD_some]
    obtain ⟨f, hf⟩ : ∃ f, R.toNat = f + 1 := ⟨R.toNat - 1, by omega⟩
    rw [hf]
    have := execLoop_fourxx send read R (settings.backoff.getD BACKOFF) f 0 []
      none none (settings.delay.getD DELAY) r (by simpa using hsend) h4 h5
    rw [this]
    rw [show (s!"non-retryable error encountered on attempt {0 + 1}")
      = "non-retryable error encountered on attempt 1" from rfl]
    simp
  refine ⟨?_, ?_, ?_⟩
  · exact execute_request_of_failed DELAY BACKOFF send read check settings _ _
      (by rw [hmain])
  · rw [execute_request_sendCalls, hmain]
  · rw [execute_request_sleeps, hmain]

theorem C3_fourxx_immediate_witness :
    (execute_request 0 0 (okSend 404 0) addRead okCheck {retries := some 2}).result
      = .requestFailed "non-retryable error encountered on attempt 1"
          [.httpStatusError 404]
    ∧ (execute_request 0 0 (okSend 404 0) addRead okCheck
        {retries := some 2}).sendCalls = 1
    ∧ (execute_request 0 0 (okSend 404 0) addRead okCheck
        {retries := some 2}).sleeps = [] :=
  C3_fourxx_immediate 0 0 (okSend 404 0) addRead okCheck {retries := some 2} 2
    ⟨404, 0⟩ rfl (by norm_num) rfl (by norm_num) (by norm_num)

/-- C9: under single-threaded execution with an idealized monotone clock,
two consecutive `acquire(key)` calls return at times separated by at least
`INTERVAL`, and every `acquire(key)` call unconditionally records the
current time as the new last-acquire timestamp for `key`, whether or not
it waited. -/
theorem C9_spacing_invariant (st : RLState) (key : String) (t1 t2 : ℚ)
    (_hmono : (acquire key st t1).returnTime ≤ t2) :
    INTERVAL ≤ (acquire key (acquire key st t1).newState t2).returnTime
      - (acquire key st t1).returnTime
    ∧ ∀ (st' : RLState) (now : ℚ),
        (acquire key st' now).newState key = some (acquire key st' now).returnTime := by
  constructor
  · simp only [acquire]
    split_ifs with h1 h2 h2 <;> simp_all <;> linarith
  · intro st' now
    simp [acquire]

theorem C9_spacing_invariant_witness :
    INTERVAL ≤ (acquire "k" (acquire "k" (fun _ => none) 0).newState 1).returnTime
      - (acquire "k" (fun _ => none) 0).returnTime
    ∧ ∀ (st' : RLState) (now : ℚ),
        (acquire "k" st' now).newState "k" = some (acquire "k" st' now).returnTime :=
  C9_spacing_invariant (fun _ => none) "k" 0 1 (by norm_num [acquire, INTERVAL])

/-- C10: for every settings with `retries ≤ 0`, `execute_request` never
calls `send` or `read`, does not raise `RequestFailed`, invokes `check`
with `response = None` and `body = None`, and (when `check` passes)
returns `None`, or the pair `(None, None)` when `settings.full` is
true. -/
theorem C10_nonpositive_retries (DELAY BACKOFF : ℚ)
    (send : Nat → Except Exc (Response ρ)) (read : Nat → Response ρ → Except Exc β)
    (check : Option (Response ρ) → Option β → Except Exc Unit) (settings : Settings)
    (R : Int) (hr : settings.retries = some R) (hR : R ≤ 0) :
    (execute_request DELAY BACKOFF send read check settings).sendCalls = 0
    ∧ (execute_request DELAY BACKOFF send read check settings).readCalls = 0
    ∧ (execute_request DELAY BACKOFF send read check settings).checkArgs
        = some (none, none)
    ∧ (∀ m es, (execute_request DELAY BACKOFF send read check settings).result
        ≠ .requestFailed m es)
    ∧ (check none none = .ok () →
        (execute_request DELAY BACKOFF send read check settings).result
          = if settings.full.getD false then .retFull none none else .retBody none) := by
  have hmain : mainLoop DELAY BACKOFF send read settings
      = ⟨.finished none none, 0, 0, []⟩ := by
    unfold mainLoop
    rw [hr]
    simp only [Option.getD_some]
    have h0 : R.toNat = 0 := by omega
    rw [h0]
    rfl
  have hfin := execute_request_of_finished DELAY BACKOFF send read check settings
    none none (by rw [hmain])
  refine ⟨?_, ?_, hfin.1, ?_, hfin.2.2⟩
  · rw [execute_request_sendCalls, hmain]
  · rw [execute_request_readCalls, hmain]
  · intro m es
    rcases hc : check none none with e | u
    · rw [hfin.2.1 e hc]
      simp
    · cases u
      rw [hfin.2.2 hc]
      by_cases hfull : settings.full.getD false <;> simp [hfull]

theorem C10_nonpositive_retries_witness :
    (execute_request 0 0 (okSend 200 5) addRead okCheck
      {retries := some 0}).sendCalls = 0
    ∧ (execute_request 0 0 (okSend 200 5) addRead okCheck
        {retries := some 0}).readCalls = 0
    ∧ (execute_request 0 0 (okSend 200 5) addRead okCheck
        {retries := some 0}).checkArgs = some (none, none)
    ∧ (∀ m es, (execute_request 0 0 (okSend 200 5) addRead okCheck
        {retries := some 0}).result ≠ .requestFailed m es)
    ∧ (okCheck none none = .ok () →
        (execute_request 0 0 (okSend 200 5) addRead okCheck
          {retries := some 0}).result
          = if ({retries := some 0} : Settings).full.getD false
            then .retFull none none else .retBody none) :=
  C10_nonpositive_retries 0 0 (okSend 200 5) addRead okCheck {retries := some 0} 0
    rfl (by norm_num)

/-- C2: for every `N ≤ settings.retries`, if `send` fails on its first
N−1 calls with a 5xx status or a raised exception and succeeds on the Nth
call with an acceptable status, and `read` and `check` succeed, then
`execute_request` returns the parsed body without raising; it returns the
pair `(response, body)` instead when `settings.full` is true, and the
body alone when `full` is false or omitted. -/
theorem C2_retry_then_success (DELAY BACKOFF : ℚ)
    (send : Nat → Except Exc (Response ρ)) (read : Nat → Response ρ → Except Exc β)
    (check : Option (Response ρ) → Option β → Except Exc Unit) (settings : Settings)
    (R : Int) (N : Nat) (r : Response ρ) (b : β)
    (hr : settings.retries = some R) (hN1 : 1 ≤ N) (hNR : (N : Int) ≤ R)
    (hfail : ∀ j, j + 1 < N → ∃ e, retryFailure send read (j + 1) e)
    (hsend : send N = .ok r)
    (hacc : r.status_code < 400 ∨ 600 ≤ r.status_code)
    (hread : read N r = .ok b)
    (hcheck : check (some r) (some b) = .ok ()) :
    (execute_request DELAY BACKOFF send read check settings).result
      = if settings.full.getD false then .retFull (some r) (some b)
        else .retBody (some b) := by
  have hmain : (mainLoop DELAY BACKOFF send read settings).exit
      = .finished (some r) (some b) := by
    unfold mainLoop
    rw [hr]
    simp only [Option.getD_some]
    have hf' : ∀ j, j < N - 1 → ∃ e, retryFailure send read (0 + 1 + j) e := by
      intro j hj
      obtain ⟨e, he⟩ := hfail j (by omega)
      refine ⟨e, ?_⟩
      have hn : j + 1 = 0 + 1 + j := by omega
      rwa [hn] at he
    have hn : 0 + (N - 1) + 1 = N := by omega
    exact (execLoop_success send read R (settings.backoff.getD BACKOFF) r b (N - 1)
      R.toNat 0 [] none none (settings.delay.getD DELAY) (by omega) (by omega) hf'
      (by rwa [hn]) hacc (by rwa [hn])).1
  exact (execute_request_of_finished DELAY BACKOFF send read check settings
    (some r) (some b) hmain).2.2 hcheck

theorem C2_retry_then_success_witness :
    (execute_request 0 0 (failThenSend 200) addRead okCheck
      {retries := some 2, delay := some 1, backoff := some 2}).result
      = .retBody (some 42) :=
  C2_retry_then_success 0 0 (failThenSend 200) addRead okCheck
    {retries := some 2, delay := some 1, backoff := some 2} 2 2 ⟨200, 5⟩ 42 rfl
    (by norm_num) (by norm_num)
    (by intro j hj
        have hj0 : j = 0 := by omega
        subst hj0
        exact ⟨.callbackError false 7, Or.inl ⟨rfl, rfl⟩⟩)
    rfl (Or.inl (by norm_num)) rfl rfl

/-- C4: if `send` and `read` succeed (so the retry loop exits
successfully) and `check` then raises an exception E, `execute_request`
propagates exactly E (not wrapped in `RequestFailed`) without any further
`send` invocation; in particular when the first attempt succeeds, `send`
is called exactly once. -/
theorem C4_check_exception_propagates (DELAY BACKOFF : ℚ)
    (send : Nat → Except Exc (Response ρ)) (read : Nat → Response ρ → Except Exc β)
    (check : Option (Response ρ) → Option β → Except Exc Unit) (settings : Settings)
    (R : Int) (N : Nat) (r : Response ρ) (b : β) (E : Exc)
    (hr : settings.retries = some R) (hN1 : 1 ≤ N) (hNR : (N : Int) ≤ R)
    (hfail : ∀ j, j + 1 < N → ∃ e, retryFailure send read (j + 1) e)
    (hsend : send N = .ok r)
    (hacc : r.status_code < 400 ∨ 600 ≤ r.status_code)
    (hread : read N r = .ok b)
    (hcheck : check (some r) (some b) = .error E) :
    (execute_request DELAY BACKOFF send read check settings).result = .raised E
    ∧ (execute_request DELAY BACKOFF send read check settings).sendCalls = N := by
  have hmain : (mainLoop DELAY BACKOFF send read settings).exit
        = .finished (some r) (some b)
      ∧ (mainLoop DELAY BACKOFF send read settings).sendCalls = N := by
    unfold mainLoop
    rw [hr]
    simp only [Option.getD_some]
    have hf' : ∀ j, j < N - 1 → ∃ e, retryFailure send read (0 + 1 + j) e := by
      intro j hj
      obtain ⟨e, he⟩ := hfail j (by omega)
      refine ⟨e, ?_⟩
      have hn : j + 1 = 0 + 1 + j := by omega
      rwa [hn] at he
    have hn : 0 + (N - 1) + 1 = N := by omega
    obtain ⟨h1', h2'⟩ := execLoop_success send read R (settings.backoff.getD BACKOFF)
      r b (N - 1) R.toNat 0 [] none none (settings.delay.getD DELAY) (by omega)
      (by omega) hf' (by rwa [hn]) hacc (by rwa [hn])
    exact ⟨h1', by omega⟩
  refine ⟨(execute_request_of_finished DELAY BACKOFF send read check settings
    (some r) (some b) hmain.1).2.1 E hcheck, ?_⟩
  rw [execute_request_sendCalls]
  exact hmain.2

theorem C4_check_exception_propagates_witness :
    (execute_request 0 0 (okSend 200 5) addRead (errCheck 3)
      {retries := some 3}).result = .raised (.callbackError false 3)
    ∧ (execute_request 0 0 (okSend 200 5) addRead (errCheck 3)
        {retries := some 3}).sendCalls = 1 :=
  C4_check_exception_propagates 0 0 (okSend 200 5) addRead (errCheck 3)
    {retries := some 3} 3 1 ⟨200, 5⟩ 42 (.callbackError false 3) rfl (by norm_num)
    (by norm_num) (by intro j hj; exact absurd hj (by omega)) rfl
    (Or.inl (by norm_num)) rfl rfl

/-- C5: if every one of the `settings.retries` attempts fails with a
retryable failure (a 5xx status or an exception from `send` or `read`),
`execute_request` raises `RequestFailed` whose errors attribute is the
list of all per-attempt exceptions in attempt order (length exactly
`settings.retries`) and whose message includes the retry budget. -/
theorem C5_retries_exhausted (DELAY BACKOFF : ℚ)
    (send : Nat → Except Exc (Response ρ)) (read : Nat → Response ρ → Except Exc β)
    (check : Option (Response ρ) → Option β → Except Exc Unit) (settings : Settings)
    (R : Int) (es : List Exc)
    (hr : settings.retries = some R) (h1 : 1 ≤ R)
    (hlen : es.length = R.toNat)
    (hf : ∀ j e, es[j]? = some e → retryFailure send read (j + 1) e) :
    (execute_request DELAY BACKOFF send read check settings).result
      = .requestFailed (s!"retry budget of {R} attempt(s) exhausted") es
    ∧ (execute_request DELAY BACKOFF send read check settings).sendCalls
        = R.toNat := by
  have hmain : (mainLoop DELAY BACKOFF send read settings).exit
        = .failed (s!"retry budget of {R} attempt(s) exhausted") es
      ∧ (mainLoop DELAY BACKOFF send read settings).sendCalls = R.toNat := by
    unfold mainLoop
    rw [hr]
    simp only [Option.getD_some]
    have hf' : ∀ j e, es[j]? = some e → retryFailure send read (0 + 1 + j) e := by
      intro j e hj
      have := hf j e hj
      have hn : j + 1 = 0 + 1 + j := by omega
      rwa [hn] at this
    obtain ⟨h1', h2'⟩ := execLoop_allfail send read R (settings.backoff.getD BACKOFF)
      es R.toNat 0 [] none none (settings.delay.getD DELAY) hlen (by omega) (by omega)
      hf'
    refine ⟨?_, h2'⟩
    rw [h1']
    simp
  refine ⟨execute_request_of_failed DELAY BACKOFF send read check settings _ _
    hmain.1, ?_⟩
  rw [execute_request_sendCalls]
  exact hmain.2

theorem C5_retries_exhausted_witness :
    (execute_request 0 0 (errSend 9) addRead okCheck
      {retries := some 1}).result
      = .requestFailed "retry budget of 1 attempt(s) exhausted"
          [.callbackError false 9]
    ∧ (execute_request 0 0 (errSend 9) addRead okCheck
        {retries := some 1}).sendCalls = 1 :=
  C5_retries_exhausted 0 0 (errSend 9) addRead okCheck {retries := some 1} 1
    [.callbackError false 9] rfl (by norm_num) rfl
    (by intro j e hj
        cases j with
        | zero =>
          simp at hj
          subst hj
          exact Or.inl ⟨rfl, rfl⟩
        | succ j => simp at hj)

/-- C8: between consecutive failed retryable attempts, `execute_request`
sleeps delays that grow geometrically: the i-th sleep (0-based, i.e. the
sleep before retry attempt i+2) equals `settings.delay *
settings.backoff ^ i`, with no upper cap on the delay. -/
theorem C8_geometric_backoff (DELAY BACKOFF : ℚ)
    (send : Nat → Except Exc (Response ρ)) (read : Nat → Response ρ → Except Exc β)
    (check : Option (Response ρ) → Option β → Except Exc Unit) (settings : Settings)
    (d bk : ℚ) (i : Nat) (x : ℚ)
    (hd : settings.delay = some d) (hb : settings.backoff = some bk)
    (h : (execute_request DELAY BACKOFF send read check settings).sleeps[i]?
      = some x) :
    x = d * bk ^ i := by
  rw [execute_request_sleeps] at h
  unfold mainLoop at h
  rw [hd, hb] at h
  simp only [Option.getD_some] at h
  exact execLoop_sleeps_geom send read (settings.retries.getD RETRIES) bk
    (settings.retries.getD RETRIES).toNat 0 [] none none d i x h

theorem C8_geometric_backoff_witness :
    (execute_request 0 0 (errSend 9) addRead okCheck
      {retries := some 3, delay := some 1, backoff := some 2}).sleeps[0]?
      = some 1
    ∧ (1 : ℚ) = 1 * 2 ^ 0 :=
  ⟨by decide, C8_geometric_backoff 0 0 (errSend 9) addRead okCheck
    {retries := some 3, delay := some 1, backoff := some 2} 1 2 0 1 rfl rfl
    (by decide)⟩

/-- C6 counterexample: with `retries = 2`, a network exception on attempt
1 followed by a 404 response on attempt 2 makes `execute_request` raise
`RequestFailed` carrying TWO errors (the attempt-1 exception and the 4xx
error), not a single-element list as the claim states. -/
theorem C6_counterexample :
    (execute_request 0 0 (failThenSend 404) addRead okCheck
      {retries := some 2, delay := some 1, backoff := some 2}).result
      = .requestFailed "non-retryable error encountered on attempt 2"
          [.callbackError false 7, .httpStatusError 404] := by
  decide

/-- C6 amended: whenever a `send` call returns a response with a 4xx
status on attempt n (after n−1 retryable failures, n ≤ retries), the
`RequestFailed` raised by `execute_request` carries the accumulated list
of all n per-attempt errors, the 4xx error last — a single-element list
exactly when the 4xx occurs on the first attempt. -/
theorem C6_amended_accumulated_errors (DELAY BACKOFF : ℚ)
    (send : Nat → Except Exc (Response ρ)) (read : Nat → Response ρ → Except Exc β)
    (check : Option (Response ρ) → Option β → Except Exc Unit) (settings : Settings)
    (R : Int) (es : List Exc) (r : Response ρ)
    (hr : settings.retries = some R) (hlen : (es.length : Int) < R)
    (hf : ∀ j e, es[j]? = some e → retryFailure send read (j + 1) e)
    (hsend : send (es.length + 1) = .ok r)
    (h4 : 400 ≤ r.status_code) (h5 : r.status_code < 500) :
    (execute_request DELAY BACKOFF send read check settings).result
      = .requestFailed (s!"non-retryable error encountered on attempt {es.length + 1}")
          (es ++ [.httpStatusError r.status_code])
    ∧ (execute_request DELAY BACKOFF send read check settings).sendCalls
        = es.length + 1 := by
  have hmain : (mainLoop DELAY BACKOFF send read settings).exit
        = .failed (s!"non-retryable error encountered on attempt {es.length + 1}")
            (es ++ [.httpStatusError r.status_code])
      ∧ (mainLoop DELAY BACKOFF send read settings).sendCalls = es.length + 1 := by
    unfold mainLoop
    rw [hr]
    simp only [Option.getD_some]
    have hf' : ∀ j e, es[j]? = some e → retryFailure send read (0 + 1 + j) e := by
      intro j e hj
      have := hf j e hj
      have hn : j + 1 = 0 + 1 + j := by omega
      rwa [hn] at this
    have hn : 0 + es.length + 1 = es.length + 1 := by omega
    obtain ⟨h1', h2'⟩ := execLoop_fail4xx_after send read R
      (settings.backoff.getD BACKOFF) r es R.toNat 0 [] none none
      (settings.delay.getD DELAY) (by omega) (by omega) hf' (by rwa [hn]) h4 h5
    rw [hn] at h1'
    refine ⟨?_, h2'⟩
    rw [h1']
    simp
  refine ⟨execute_request_of_failed DELAY BACKOFF send read check settings _ _
    hmain.1, ?_⟩
  rw [execute_request_sendCalls]
  exact hmain.2

theorem C6_amended_accumulated_errors_witness :
    (execute_request 0 0 (failThenSend 404) addRead okCheck
      {retries := some 2, delay := some 1, backoff := some 2}).result
      = .requestFailed "non-retryable error encountered on attempt 2"
          [.callbackError false 7, .httpStatusError 404]
    ∧ (execute_request 0 0 (failThenSend 404) addRead okCheck
        {retries := some 2, delay := some 1, backoff := some 2}).sendCalls = 2 :=
  C6_amended_accumulated_errors 0 0 (failThenSend 404) addRead okCheck
    {retries := some 2, delay := some 1, backoff := some 2} 2
    [.callbackError false 7] ⟨404, 5⟩ rfl (by norm_num)
    (by intro j e hj
        cases j with
        | zero =>
          simp at hj
          subst hj
          exact Or.inl ⟨rfl, rfl⟩
        | succ j => simp at hj)
    rfl (by norm_num) (by norm_num)

/-- C7 counterexample: a response with the non-2xx status 301 is NOT
treated as an HTTP error: `execute_request` passes it to `read` as a
success (`readCalls = 1`), records no error, does not sleep, and returns
the parsed body — refuting the claim that every non-2xx status follows
the error path. -/
theorem C7_counterexample :
    (execute_request 0 0 (okSend 301 5) addRead okCheck
      {retries := some 1}).result = .retBody (some 42)
    ∧ (execute_request 0 0 (okSend 301 5) addRead okCheck
        {retries := some 1}).readCalls = 1
    ∧ (execute_request 0 0 (okSend 301 5) addRead okCheck
        {retries := some 1}).sleeps = [] := by
  decide

/-- C7 amended: a response returned by `send` (here: on the first
attempt) is treated as an HTTP error exactly when its status lies in
[400, 600): a 4xx raises `RequestFailed` at once with that error
appended; a 5xx follows the retry/fail path (budget exhaustion when
`retries = 1`, otherwise a first sleep of `settings.delay` and at least
one further `send` call); any other status — 2xx, but also 3xx and
≥ 600 — is passed to `read` as a success. -/
theorem C7_amended_status_classification (DELAY BACKOFF : ℚ)
    (send : Nat → Except Exc (Response ρ)) (read : Nat → Response ρ → Except Exc β)
    (check : Option (Response ρ) → Option β → Except Exc Unit) (settings : Settings)
    (R : Int) (r : Response ρ)
    (hr : settings.retries = some R) (h1 : 1 ≤ R) (hsend : send 1 = .ok r) :
    (400 ≤ r.status_code → r.status_code < 500 →
      (execute_request DELAY BACKOFF send read check settings).result
        = .requestFailed "non-retryable error encountered on attempt 1"
            [.httpStatusError r.status_code])
    ∧ (500 ≤ r.status_code → r.status_code < 600 →
        (R = 1 →
          (execute_request DELAY BACKOFF send read check settings).result
            = .requestFailed (s!"retry budget of {R} attempt(s) exhausted")
                [.httpStatusError r.status_code])
        ∧ (1 < R →
            (execute_request DELAY BACKOFF send read check settings).sleeps[0]?
              = some (settings.delay.getD DELAY)
            ∧ 2 ≤ (execute_request DELAY BACKOFF send read check settings).sendCalls))
    ∧ ((r.status_code < 400 ∨ 600 ≤ r.status_code) →
        1 ≤ (execute_request DELAY BACKOFF send read check settings).readCalls) := by
  obtain ⟨f, hfR⟩ : ∃ f, R.toNat = f + 1 := ⟨R.toNat - 1, by omega⟩
  refine ⟨?_, ?_, ?_⟩
  · intro h4 h5
    apply execute_request_of_failed
    unfold mainLoop
    rw [hr]
    simp only [Option.getD_some]
    rw [hfR]
    rw [execLoop_fourxx send read R (settings.backoff.getD BACKOFF) f 0 [] none none
      (settings.delay.getD DELAY) r (by simpa using hsend) h4 h5]
    rw [show (s!"non-retryable error encountered on attempt {0 + 1}")
      = "non-retryable error encountered on attempt 1" from rfl]
    simp
  · intro h5 h6
    obtain ⟨response', body', rc, heq⟩ := execLoop_retry_step send read R
      (settings.backoff.getD BACKOFF) f 0 [] none none (settings.delay.getD DELAY)
      (.httpStatusError r.status_code)
      (Or.inr (Or.inl ⟨r, by simpa using hsend, h5, h6, rfl⟩))
    constructor
    · intro hR1
      apply execute_request_of_failed
      unfold mainLoop
      rw [hr]
      simp only [Option.getD_some]
      rw [hfR, heq]
      rw [retryOrFail_last _ _ _ _ _ _ (by omega)]
      simp
    · intro hR2
      obtain ⟨f', hf'⟩ : ∃ f', f = f' + 1 := ⟨f - 1, by omega⟩
      constructor
      · rw [execute_request_sleeps]
        unfold mainLoop
        rw [hr]
        simp only [Option.getD_some]
        rw [hfR, heq]
        rw [retryOrFail_cont _ _ _ _ _ _ (by omega)]
        simp
      · rw [execute_request_sendCalls]
        unfold mainLoop
        rw [hr]
        simp only [Option.getD_some]
        rw [hfR, heq]
        rw [retryOrFail_cont _ _ _ _ _ _ (by omega)]
        rw [hf']
        have := execLoop_sendCalls_pos send read R (settings.backoff.getD BACKOFF) f'
          1 ([] ++ [Exc.httpStatusError r.status_code]) response' body'
          (settings.delay.getD DELAY * settings.backoff.getD BACKOFF)
        exact Nat.succ_le_succ this
  · intro hacc
    rw [execute_request_readCalls]
    unfold mainLoop
    rw [hr]
    simp only [Option.getD_some]
    rw [hfR]
    exact execLoop_readCalls_pos send read R (settings.backoff.getD BACKOFF) f 0 []
      none none (settings.delay.getD DELAY) r (by simpa using hsend) hacc

theorem C7_amended_status_classification_witness :
    (400 ≤ 301 → 301 < 500 →
      (execute_request 0 0 (okSend 301 5) addRead okCheck
        {retries := some 1}).result
        = .requestFailed "non-retryable error encountered on attempt 1"
            [.httpStatusError 301])
    ∧ (500 ≤ 301 → 301 < 600 →
        ((1 : Int) = 1 →
          (execute_request 0 0 (okSend 301 5) addRead okCheck
            {retries := some 1}).result
            = .requestFailed "retry budget of 1 attempt(s) exhausted"
                [.httpStatusError 301])
        ∧ (1 < (1 : Int) →
            (execute_request 0 0 (okSend 301 5) addRead okCheck
              {retries := some 1}).sleeps[0]? = some 0
            ∧ 2 ≤ (execute_request 0 0 (okSend 301 5) addRead okCheck
                {retries := some 1}).sendCalls))
    ∧ ((301 < 400 ∨ 600 ≤ 301) →
        1 ≤ (execute_request 0 0 (okSend 301 5) addRead okCheck
          {retries := some 1}).readCalls) :=
  C7_amended_status_classification 0 0 (okSend 301 5) addRead okCheck
    {retries := some 1} 1 ⟨301, 5⟩ rfl (by norm_num) rfl

end Integrations
